import Mathlib

/-!
Verification of the ASF_STAC STAC-metadata pipeline.

Shallow embedding of the four Python source files:
* collections/sentinel-1-global-coherence/create_coherence_items.py
  (namespace CreateCoherenceItems),
* src/coherence_stac.py (namespace CoherenceStac),
* collections/ingest_data.py (namespace IngestData),
together with the shared Python builtin fragments they use (namespace
ASFStac).  Machine integers are Int/Nat, Python exceptions are modelled with
Except/Option, and external collaborators (S3 listings, HTTP sessions) are
passed in as oracle functions.
-/

namespace ASFStac

/-- Split a list of characters at every occurrence of `sep`; the behaviour of
Python `str.split` with a one-character separator (the result always has one
more element than there are separators, so it is never empty). -/
def splitOnChar (sep : Char) : List Char → List (List Char)
  | [] => [[]]
  | c :: cs =>
    let r := splitOnChar sep cs
    if c = sep then [] :: r
    else
      match r with
      | [] => [[c]]
      | h :: t => (c :: h) :: t

/-- All characters are ASCII digits. -/
def allDigits (cs : List Char) : Bool := cs.all (fun c => c.isDigit)

/-- Decimal value of a digit string. -/
def digitsVal (cs : List Char) : Nat := cs.foldl (fun a c => a * 10 + (c.toNat - 48)) 0

/-- Python `int(s)` on the fragment this repository feeds to it: an optional
single sign followed by one or more ASCII digits.  (Python's `int` also
strips surrounding whitespace and allows underscore digit separators; none of
the fields this code base slices out of its tokens use those.)  `none` models
`ValueError`. -/
def pyInt : List Char → Option Int
  | [] => none
  | c :: rest =>
    if c = '-' then
      if rest ≠ [] ∧ allDigits rest then some (-(digitsVal rest : Int)) else none
    else if c = '+' then
      if rest ≠ [] ∧ allDigits rest then some ((digitsVal rest : Int)) else none
    else if allDigits (c :: rest) then some ((digitsVal (c :: rest) : Int)) else none

/-- Python `str.upper` on the ASCII strings this repository handles. -/
def pyUpper (s : String) : String := String.mk (s.data.map Char.toUpper)

/-- Python `str.lower` on the ASCII strings this repository handles. -/
def pyLower (s : String) : String := String.mk (s.data.map Char.toLower)

/-- Whether `p` is an initial segment of `s`. -/
def startsList : List Char → List Char → Bool
  | [], _ => true
  | _ :: _, [] => false
  | a :: p1, b :: s1 => a == b && startsList p1 s1

/-- Python substring containment `sub in hay`. -/
def containsSub : List Char → List Char → Bool
  | [], sub => startsList sub []
  | c :: t, sub => startsList sub (c :: t) || containsSub t sub

/-- Python exceptions distinguished by this embedding. -/
inductive PyErr
  | valueError
  | keyError
  | indexError
  | assertionError
  | httpError
deriving DecidableEq

/-- Whether an Except value is an error. -/
def isError {ε α : Type} : Except ε α → Bool
  | .error _ => true
  | .ok _ => false

instance {ε α : Type} [DecidableEq ε] [DecidableEq α] : DecidableEq (Except ε α) := fun x y =>
  match x, y with
  | .error a, .error b =>
    if h : a = b then .isTrue (by rw [h]) else .isFalse (by intro hh; cases hh; exact h rfl)
  | .ok a, .ok b =>
    if h : a = b then .isTrue (by rw [h]) else .isFalse (by intro hh; cases hh; exact h rfl)
  | .error _, .ok _ => .isFalse (by intro hh; cases hh)
  | .ok _, .error _ => .isFalse (by intro hh; cases hh)

/-- Left-to-right effectful map: a Python list comprehension whose body may
raise, propagating the first exception. -/
def mapME {ε α β : Type} (f : α → Except ε β) : List α → Except ε (List β)
  | [] => .ok []
  | a :: l =>
    match f a with
    | .error e => .error e
    | .ok b =>
      match mapME f l with
      | .error e => .error e
      | .ok bs => .ok (b :: bs)

/-- Axis-aligned rectangle, the result of `shapely.geometry.box`; the bounds
tuple is (min_x, min_y, max_x, max_y). -/
structure Box where
  min_x : Int
  min_y : Int
  max_x : Int
  max_y : Int
deriving DecidableEq

/-- Exterior ring of `shapely.geometry.box` as produced by
`geometry.mapping`: counter-clockwise from the lower-right corner, closed by
repeating the first vertex. -/
def boxRing (b : Box) : List (Int × Int) :=
  [(b.max_x, b.min_y), (b.max_x, b.max_y), (b.min_x, b.max_y), (b.min_x, b.min_y),
   (b.max_x, b.min_y)]

/-- Python `datetime.datetime` restricted to the fields this repository uses:
every datetime constant in the sources has zero minutes, seconds and
microseconds. -/
structure PyDateTime where
  year : Int
  month : Nat
  day : Nat
  hour : Nat
deriving DecidableEq

/-- Day number of a proleptic-Gregorian date relative to 1970-01-01 (the
standard civil-from-days algorithm); this gives meaning to Python datetime
subtraction in the embedding. -/
def daysFromCivil (y : Int) (m d : Nat) : Int :=
  let y1 : Int := if m ≤ 2 then y - 1 else y
  let era : Int := (if 0 ≤ y1 then y1 else y1 - 399) / 400
  let yoe : Int := y1 - era * 400
  let mp : Int := if 2 < m then (m : Int) - 3 else (m : Int) + 9
  let doy : Int := (153 * mp + 2) / 5 + (d : Int) - 1
  let doe : Int := yoe * 365 + yoe / 4 - yoe / 100 + doy
  era * 146097 + doe - 719468

/-- A datetime as an absolute number of minutes; Python datetime arithmetic
is modelled on this timeline (every constant involved is a whole hour). -/
def toMinutes (dt : PyDateTime) : Int :=
  daysFromCivil dt.year dt.month dt.day * 1440 + (dt.hour : Int) * 60

/-- Python `start + (end - start) / 2` on datetimes, in minutes.  The
timedelta division is exact for every pair of season bounds (their distance
is an even number of minutes), so integer division is faithful. -/
def midMinutes (s e : PyDateTime) : Int := toMinutes s + (toMinutes e - toMinutes s) / 2

/-- Zero-padded two-digit decimal rendering. -/
def pad2 (n : Nat) : String := if n < 10 then "0" ++ toString n else toString n

/-- Python `datetime.isoformat()` for the whole-hour instants this code base
uses (minutes, seconds and microseconds are all zero, and every year has four
digits). -/
def isoformat (dt : PyDateTime) : String :=
  toString dt.year ++ "-" ++ pad2 dt.month ++ "-" ++ pad2 dt.day ++ "T" ++
    pad2 dt.hour ++ ":00:00"

/-- The scheme-and-authority part of an absolute URL: everything up to the
end of the host. -/
def schemeAuthority (s : String) : String :=
  String.mk (List.intercalate ['/'] ((splitOnChar '/' s.data).take 3))

/-- Everything up to and including the last slash of a URL. -/
def upToLastSlash (s : String) : String :=
  String.mk (List.intercalate ['/'] ((splitOnChar '/' s.data).dropLast) ++ ['/'])

/-- Python `urllib.parse.urljoin`, restricted to the two cases this
repository exercises: a target beginning with a slash replaces the base's
path, any other relative path target is resolved against the base's
directory. -/
def urljoin (base rel : String) : String :=
  match rel.data with
  | '/' :: _ => schemeAuthority base ++ rel
  | _ => upToLastSlash base ++ rel

/-- The 7-character tile-identifier pattern of the spec, `[NS]dd[EW]ddd`. -/
def isTilePattern (s : String) : Bool :=
  match s.data with
  | [a, b, c, d, e, f, g] =>
    (a == 'N' || a == 'S') && b.isDigit && c.isDigit &&
      (d == 'E' || d == 'W') && e.isDigit && f.isDigit && g.isDigit
  | _ => false

end ASFStac

namespace CreateCoherenceItems

open ASFStac

/-- The season bounds of the SEASON_DATE_RANGES dict literal. -/
def WINTER_RANGE : PyDateTime × PyDateTime := (⟨2019, 12, 1, 0⟩, ⟨2020, 2, 28, 0⟩)

/-- The season bounds of the SEASON_DATE_RANGES dict literal. -/
def SPRING_RANGE : PyDateTime × PyDateTime := (⟨2020, 3, 1, 0⟩, ⟨2020, 5, 31, 0⟩)

/-- The season bounds of the SEASON_DATE_RANGES dict literal. -/
def SUMMER_RANGE : PyDateTime × PyDateTime := (⟨2020, 6, 1, 0⟩, ⟨2020, 8, 31, 0⟩)

/-- The season bounds of the SEASON_DATE_RANGES dict literal. -/
def FALL_RANGE : PyDateTime × PyDateTime := (⟨2020, 9, 1, 0⟩, ⟨2020, 11, 30, 0⟩)

/-- The SEASON_DATE_RANGES dict; `none` models `KeyError`. -/
def SEASON_DATE_RANGES (k : String) : Option (PyDateTime × PyDateTime) :=
  if k = "WINTER" then some WINTER_RANGE
  else if k = "SPRING" then some SPRING_RANGE
  else if k = "SUMMER" then some SUMMER_RANGE
  else if k = "FALL" then some FALL_RANGE
  else none

/-- The SEASON_DATETIME_AVERAGES dict; `none` models `KeyError`. -/
def SEASON_DATETIME_AVERAGES (k : String) : Option PyDateTime :=
  if k = "WINTER" then some ⟨2020, 1, 14, 12⟩
  else if k = "SPRING" then some ⟨2020, 4, 15, 12⟩
  else if k = "SUMMER" then some ⟨2020, 7, 16, 12⟩
  else if k = "FALL" then some ⟨2020, 10, 16, 0⟩
  else none

def COLLECTION_ID : String := "sentinel-1-global-coherence"

def SAR_INSTRUMENT_MODE : String := "IW"

def SAR_FREQUENCY_BAND : String := "C"

def SAR_LOOKS_RANGE : Nat := 12

def SAR_LOOKS_AZIMUTH : Nat := 3

def SAR_OBSERVATION_DIRECTION : String := "right"

/-- The ExtraItemMetadata dataclass. -/
structure ExtraItemMetadata where
  season : String
  date_range : PyDateTime × PyDateTime
  datetime : PyDateTime
  polarization : String
deriving DecidableEq

/-- The ItemMetadata dataclass (extra defaults to None). -/
structure ItemMetadata where
  id : String
  bbox : Box
  tileid : String
  product : String
  extra : Option ExtraItemMetadata := none
deriving DecidableEq

/-- item_id_from_s3_key: basename of the key without its extension.  Python
indexes [-1] and [0] into results of str.split, which are always nonempty, so
the defaults below are unreachable. -/
def item_id_from_s3_key (s3_key : String) : String :=
  let basename := String.mk ((splitOnChar '/' s3_key.data).getLastD [])
  String.mk ((splitOnChar '.' basename.data).headD [])

/-- bounding_box_from_tile_id.  The slices tileid[1:3] and tileid[4:7] go
through `int`, and tileid[0] and tileid[3] are indexings; `none` models the
ValueError or IndexError those raise. -/
def bounding_box_from_tile_id (tileid : String) : Option Box :=
  let cs := tileid.data
  match cs[0]?, pyInt ((cs.drop 1).take 2), cs[3]?, pyInt ((cs.drop 4).take 3) with
  | some lat, some latval, some lon, some lonval =>
    let max_y := if lat = 'N' then latval else -latval
    let min_y := max_y - 1
    let min_x := if lon = 'E' then lonval else -lonval
    let max_x := min_x + 1
    some { min_x := min_x, min_y := min_y, max_x := max_x, max_y := max_y }
  | _, _, _, _ => none

/-- parse_s3_key.  The item id is upper-cased before splitting on '_'; a part
count other than 3 or 4 fails tuple unpacking (ValueError), and an unknown
season key raises KeyError. -/
def parse_s3_key (s3_key : String) : Except PyErr ItemMetadata :=
  let item_id := item_id_from_s3_key s3_key
  let parts := (splitOnChar '_' (pyUpper item_id).data).map String.mk
  match parts with
  | [tileid, _orbit, product] =>
    match bounding_box_from_tile_id tileid with
    | none => .error .valueError
    | some bbox => .ok { id := item_id, bbox := bbox, tileid := tileid, product := product }
  | [tileid, season, polarization, product] =>
    match bounding_box_from_tile_id tileid with
    | none => .error .valueError
    | some bbox =>
      match SEASON_DATE_RANGES season, SEASON_DATETIME_AVERAGES season with
      | some dr, some avg =>
        .ok { id := item_id, bbox := bbox, tileid := tileid, product := product,
              extra := some { season := season, date_range := dr, datetime := avg,
                              polarization := polarization } }
      | _, _ => .error .keyError
  | _ => .error .valueError

/-- datetime_to_str: isoformat with a literal trailing Z. -/
def datetime_to_str (dt : PyDateTime) : String := isoformat dt ++ "Z"

/-- The properties dict of a single-mode STAC item.  The float constant
sar:center_frequency = 5.405 is a fixed literal copied into every item and is
left out of the embedding. -/
structure SingleItemProperties where
  tileid : String
  sar_instrument_mode : String
  sar_frequency_band : String
  sar_product_type : String
  sar_looks_range : Nat
  sar_looks_azimuth : Nat
  sar_observation_direction : String
  start_datetime : String
  end_datetime : String
  season : Option String := none
  datetime : Option String := none
  sar_polarizations : Option (List String) := none
deriving DecidableEq

/-- The item dict built by create_stac_item: type, stac_version, the
stac_extensions list and the asset media type are fixed literals and are kept
implicit; the single DATA asset is represented by its href. -/
structure StacItemSingle where
  id : String
  properties : SingleItemProperties
  geometry : List (Int × Int)
  asset_href : String
  bbox : Box
  collection : String
deriving DecidableEq

/-- create_stac_item (single-item mode): parses the key and assembles the
item dict, updating the seasonal properties when extra metadata is present. -/
def create_stac_item (s3_key s3_url : String) : Except PyErr StacItemSingle :=
  match parse_s3_key s3_key with
  | .error e => .error e
  | .ok metadata =>
    let baseProps : SingleItemProperties :=
      { tileid := metadata.tileid,
        sar_instrument_mode := SAR_INSTRUMENT_MODE,
        sar_frequency_band := SAR_FREQUENCY_BAND,
        sar_product_type := metadata.product,
        sar_looks_range := SAR_LOOKS_RANGE,
        sar_looks_azimuth := SAR_LOOKS_AZIMUTH,
        sar_observation_direction := SAR_OBSERVATION_DIRECTION,
        start_datetime := datetime_to_str WINTER_RANGE.1,
        end_datetime := datetime_to_str FALL_RANGE.2 }
    let props :=
      match metadata.extra with
      | none => baseProps
      | some extra =>
        { baseProps with
          season := some extra.season,
          start_datetime := datetime_to_str extra.date_range.1,
          end_datetime := datetime_to_str extra.date_range.2,
          datetime := some (datetime_to_str extra.datetime),
          sar_polarizations := some [extra.polarization] }
    .ok { id := metadata.id, properties := props,
          geometry := boxRing metadata.bbox,
          asset_href := urljoin s3_url s3_key,
          bbox := metadata.bbox,
          collection := COLLECTION_ID }

end CreateCoherenceItems

namespace CoherenceStac

open ASFStac

/-- The SEASONS dict of coherence_stac.py; `none` models `KeyError`. -/
def SEASONS (k : String) : Option (PyDateTime × PyDateTime) :=
  if k = "WINTER" then some (⟨2019, 12, 1, 0⟩, ⟨2020, 2, 28, 0⟩)
  else if k = "SPRING" then some (⟨2020, 3, 1, 0⟩, ⟨2020, 5, 31, 0⟩)
  else if k = "SUMMER" then some (⟨2020, 6, 1, 0⟩, ⟨2020, 8, 31, 0⟩)
  else if k = "FALL" then some (⟨2020, 9, 1, 0⟩, ⟨2020, 11, 30, 0⟩)
  else none

/-- tileid_to_bbox.  Same slicing and `int` conversions as the other decoder,
but testing tileid[0] against 'S' and tileid[3] against 'W'. -/
def tileid_to_bbox (tileid : String) : Option Box :=
  let cs := tileid.data
  match pyInt ((cs.drop 1).take 2), cs[0]?, pyInt ((cs.drop 4).take 3), cs[3]? with
  | some n0, some c0, some w0, some c3 =>
    let north := if c0 = 'S' then -n0 else n0
    let south := north - 1
    let west := if c3 = 'W' then -w0 else w0
    let east := west + 1
    some { min_x := west, min_y := south, max_x := east, max_y := north }
  | _, _, _, _ => none

/-- Final path component of a URL (pathlib's name; the URLs this repository
builds never end in a slash). -/
def pathName (s : String) : String :=
  String.mk ((splitOnChar '/' s.data).getLastD [])

/-- pathlib's stem: the name without its last suffix; a dot at position 0
alone does not start a suffix. -/
def pathStem (s : String) : String :=
  let parts := splitOnChar '.' s.data
  match parts with
  | [] => s
  | [_] => s
  | first :: rest =>
    if first = [] ∧ rest.length = 1 then s
    else String.mk (List.intercalate ['.'] (parts.dropLast))

/-- The metadata dict built by parse_url; date_range, season and polarization
are present only for 4-part names, and reading an absent key raises KeyError
(modelled by the Option fields). -/
structure AssetDict where
  url : String
  bbox : Box
  tileid : String
  product : String
  date_range : Option (PyDateTime × PyDateTime) := none
  season : Option String := none
  polarization : Option String := none
deriving DecidableEq

/-- parse_url: upper-cases the URL, takes the stem of its final component and
splits on '_'; a part count other than 3 or 4 fails tuple unpacking. -/
def parse_url (url : String) : Except PyErr AssetDict :=
  let parts := (splitOnChar '_' (pathStem (pathName (pyUpper url))).data).map String.mk
  match parts with
  | [tileid, _orbit, product] =>
    match tileid_to_bbox tileid with
    | none => .error .valueError
    | some bbox => .ok { url := url, bbox := bbox, tileid := tileid, product := product }
  | [tileid, season, polarization, product] =>
    match tileid_to_bbox tileid with
    | none => .error .valueError
    | some bbox =>
      match SEASONS season with
      | none => .error .keyError
      | some dr =>
        .ok { url := url, bbox := bbox, tileid := tileid, product := product,
              date_range := some dr, season := some season,
              polarization := some polarization }
  | _ => .error .valueError

/-- One entry of a pystac item's asset dict: its key, href, and the
extra_fields this code attaches.  The GeoTIFF media type is a fixed literal
on every asset and is kept implicit. -/
structure CohAsset where
  key : String
  href : String
  polarization : Option String := none
  product : Option String := none
  temporal_separation : Option String := none
deriving DecidableEq

/-- A pystac item as built by create_stac_item of coherence_stac.py.  The
item datetime (the computed season midpoint) is kept in minutes; start and
end datetimes are the isoformat strings the code stores (without Z).  Assets
are listed in insertion order; pystac's add_asset would overwrite an earlier
asset with the same key, which no theorem below depends on. -/
structure CohItem where
  id : String
  geometry : List (Int × Int)
  bbox : Box
  datetimeMinutes : Int
  tileid : String
  season : String
  start_datetime : String
  end_datetime : String
  polarizations : List String
  assets : List CohAsset
deriving DecidableEq

/-- Membership test of pystac.extensions.sar.Polarization, a str-Enum with
exactly these four values; any other argument raises ValueError. -/
def isSarPolarization (p : String) : Bool :=
  p == "HH" || p == "HV" || p == "VH" || p == "VV"

/-- Body of the seasonal-assets loop of create_stac_item: the asset entry
built for one seasonal asset.  Reading a missing polarization key raises
KeyError; when 'COH' occurs in the product, `int` of the product's last two
characters may raise ValueError. -/
def seasonal_asset_entry (asset : AssetDict) : Except PyErr CohAsset :=
  match asset.polarization with
  | none => .error .keyError
  | some pol =>
    let key := asset.product ++ "_" ++ pol
    if containsSub asset.product.data "COH".data then
      match pyInt (asset.product.data.drop (asset.product.data.length - 2)) with
      | none => .error .valueError
      | some n =>
        .ok { key := key, href := asset.url, polarization := some pol,
              product := some "COH",
              temporal_separation := some (toString n ++ " days") }
    else
      .ok { key := key, href := asset.url, polarization := some pol,
            product := some asset.product }

/-- Body of the yearly-assets loop of create_stac_item: an asset keyed by its
product code with no extra fields. -/
def yearly_asset_entry (asset : AssetDict) : CohAsset :=
  { key := asset.product, href := asset.url }

/-- create_stac_item (collection-grouping mode).  Python set iteration order
is unspecified, so the polarization list is deduplicated keeping an arbitrary
representative order; no theorem below depends on that order.  Exceptions the
Python code raises at different points of the construction all discard the
item, so only which input raises, not the exception's identity, is
significant. -/
def create_stac_item (yearly_assets seasonal_assets : List AssetDict) :
    Except PyErr CohItem :=
  match seasonal_assets with
  | [] => .error .indexError
  | ex_asset :: _ =>
    match ex_asset.season with
    | none => .error .keyError
    | some season =>
      let item_id := ex_asset.tileid ++ "_" ++ season
      match ex_asset.date_range with
      | none => .error .keyError
      | some dr =>
        match mapME (fun x =>
            match x.polarization with
            | none => Except.error PyErr.keyError
            | some p => Except.ok (pyUpper p)) seasonal_assets with
        | .error e => .error e
        | .ok pols =>
          let polarizations := pols.dedup
          if polarizations.all isSarPolarization then
            match mapME seasonal_asset_entry seasonal_assets with
            | .error e => .error e
            | .ok seasonal_entries =>
              .ok { id := item_id,
                    geometry := boxRing ex_asset.bbox,
                    bbox := ex_asset.bbox,
                    datetimeMinutes := midMinutes dr.1 dr.2,
                    tileid := ex_asset.tileid,
                    season := season,
                    start_datetime := isoformat dr.1,
                    end_datetime := isoformat dr.2,
                    polarizations := polarizations,
                    assets := yearly_assets.map yearly_asset_entry ++ seasonal_entries }
          else .error .valueError

/-- A pystac collection as built by create_tile_stac_collection. -/
structure CohCollection where
  id : String
  description : String
  spatial_extent : Box
  temporal_extent : PyDateTime × PyDateTime
  items : List CohItem
deriving DecidableEq

/-- The fixed default date_interval argument of create_tile_stac_collection,
always left at its default in this repository. -/
def default_date_interval : PyDateTime × PyDateTime := (⟨2019, 12, 1, 0⟩, ⟨2020, 11, 30, 0⟩)

/-- create_tile_stac_collection.  S3 access (get_object_urls) is an external
collaborator, passed in as the `listing` oracle from a prefix to the object
URLs below it.  Yearly assets are the URLs containing 'inc' or 'lsmap' as a
substring; each distinct season found among the remaining assets yields one
item, whose seasonal assets are the URLs containing the lower-cased season
name. -/
def create_tile_stac_collection (listing : String → List String) (pfx : String) :
    Except PyErr CohCollection :=
  let urls := listing pfx
  match mapME parse_url urls with
  | .error e => .error e
  | .ok asset_dicts =>
    let isYearly := fun (x : AssetDict) =>
      containsSub x.url.data "inc".data || containsSub x.url.data "lsmap".data
    let yearly_assets := asset_dicts.filter isYearly
    match mapME (fun (x : AssetDict) =>
        match x.season with
        | none => Except.error PyErr.keyError
        | some s => Except.ok s) (asset_dicts.filter (fun x => !isYearly x)) with
    | .error e => .error e
    | .ok seasons0 =>
      let seasons := seasons0.dedup
      match mapME (fun season => create_stac_item yearly_assets
          (asset_dicts.filter (fun x => containsSub x.url.data (pyLower season).data)))
          seasons with
      | .error e => .error e
      | .ok items =>
        match asset_dicts with
        | [] => .error .indexError
        | first :: _ =>
          match items with
          | [] => .error .indexError
          | item0 :: _ =>
            .ok { id := first.tileid,
                  description := "Sentinel-1 Coherence Tile " ++ first.tileid,
                  spatial_extent := item0.bbox,
                  temporal_extent := default_date_interval,
                  items := items }

/-- safe_create_tile_stac_collection: the bare try/except that degrades any
exception from collection building to the identifying prefix. -/
def safe_create_tile_stac_collection (listing : String → List String) (pfx : String) :
    Sum CohCollection String :=
  match create_tile_stac_collection listing pfx with
  | .ok c => .inl c
  | .error _ => .inr pfx

end CoherenceStac

namespace IngestData

open ASFStac

/-- The fields of a STAC JSON object that ingest_data.py reads.  The JSON
key is 'type', a reserved word in Lean, embedded as `typ`; a Feature without
a collection key raises KeyError when the endpoint string is built. -/
structure StacObject where
  typ : String
  id : String
  collection : Option String := none
deriving DecidableEq

/-- get_endpoint: collections endpoint for catalogs and collections, items
endpoint for features, and a failing assert for anything else. -/
def get_endpoint (stac_object : StacObject) : Except PyErr String :=
  if stac_object.typ = "Catalog" ∨ stac_object.typ = "Collection" then
    .ok "/collections"
  else if stac_object.typ = "Feature" then
    match stac_object.collection with
    | some c => .ok ("/collections/" ++ c ++ "/items")
    | none => .error .keyError
  else .error .assertionError

/-- HTTP methods used by the ingester. -/
inductive Method
  | post
  | put
deriving DecidableEq

/-- One HTTP request sent by the ingester. -/
structure HttpRequest where
  method : Method
  url : String
deriving DecidableEq

/-- requests' raise_for_status raises for status codes 400-599. -/
def raisesForStatus (status : Nat) : Bool := 400 ≤ status && status < 600

/-- add_stac_object.  The HTTP session is an external collaborator, passed in
as the `respond` oracle giving the status code of each request.  Returns the
requests actually sent and the exception raised, if any: one POST, retried
once as a PUT to the same URL when the POST returns 409, then
raise_for_status on the last response. -/
def add_stac_object (respond : Method → String → StacObject → Nat)
    (stac_object : StacObject) (api_url : String) : List HttpRequest × Option PyErr :=
  match get_endpoint stac_object with
  | .error e => ([], some e)
  | .ok endpoint =>
    let url := urljoin api_url endpoint
    let status := respond .post url stac_object
    if status = 409 then
      let status2 := respond .put url stac_object
      ([⟨.post, url⟩, ⟨.put, url⟩],
       if raisesForStatus status2 then some .httpError else none)
    else
      ([⟨.post, url⟩],
       if raisesForStatus status then some .httpError else none)

/-- The loop of main: ingest the objects in order; an exception from
add_stac_object propagates and aborts the loop (there is no try/except in
main).  Returns all requests sent and the exception, if any. -/
def ingest_main (respond : Method → String → StacObject → Nat) (api_url : String) :
    List StacObject → List HttpRequest × Option PyErr
  | [] => ([], none)
  | o :: rest =>
    match add_stac_object respond o api_url with
    | (reqs, some e) => (reqs, some e)
    | (reqs, none) =>
      let r := ingest_main respond api_url rest
      (reqs ++ r.1, r.2)

end IngestData

namespace ASFStac

/-- Latitude magnitude read from the two digit characters of a tile token. -/
def latVal (b c : Char) : Int := ((10 * (b.toNat - 48) + (c.toNat - 48) : Nat) : Int)

/-- Longitude magnitude read from the three digit characters of a tile
token. -/
def lonVal (e f g : Char) : Int :=
  ((100 * (e.toNat - 48) + 10 * (f.toNat - 48) + (g.toNat - 48) : Nat) : Int)

/-- Build the well-formed tile token [NS]dd[EW]ddd from hemisphere flags and
zero-padded magnitudes; every token matching the pattern has this form. -/
def mkTileString (south : Bool) (latv : Fin 100) (west : Bool) (lonv : Fin 1000) : String :=
  String.mk [(if south then 'S' else 'N'),
             Nat.digitChar (latv.val / 10), Nat.digitChar (latv.val % 10),
             (if west then 'W' else 'E'),
             Nat.digitChar (lonv.val / 100), Nat.digitChar (lonv.val / 10 % 10),
             Nat.digitChar (lonv.val % 10)]

end ASFStac

section Fixtures

open ASFStac

/-- One-tile S3 listing used in concrete instantiations below: every prefix
except "bad/" holds a single fall-season coherence GeoTIFF. -/
def sampleListing : String → List String := fun p =>
  if p = "bad/" then [] else ["https://b/data/tiles/N00E005/N00E005_fall_vv_COH36.tif"]

/-- A parsed seasonal coherence asset with the ordinary two-digit COH
product. -/
def sampleAssetCoh36 : CoherenceStac.AssetDict :=
  { url := "https://b/data/tiles/N00E005/N00E005_fall_vv_COH36.tif",
    bbox := ⟨5, -1, 6, 0⟩, tileid := "N00E005", product := "COH36",
    date_range := some (⟨2020, 9, 1, 0⟩, ⟨2020, 11, 30, 0⟩),
    season := some "FALL", polarization := some "VV" }

/-- A parsed seasonal asset whose COH product has a three-digit suffix. -/
def sampleAssetCoh123 : CoherenceStac.AssetDict :=
  { url := "u1", bbox := ⟨5, -1, 6, 0⟩, tileid := "N00E005", product := "COH123",
    date_range := some (⟨2020, 9, 1, 0⟩, ⟨2020, 11, 30, 0⟩),
    season := some "FALL", polarization := some "VV" }

/-- A parsed seasonal asset whose product contains but does not begin with
COH. -/
def sampleAssetAcoh36 : CoherenceStac.AssetDict :=
  { url := "u2", bbox := ⟨5, -1, 6, 0⟩, tileid := "N00E005", product := "ACOH36",
    date_range := some (⟨2020, 9, 1, 0⟩, ⟨2020, 11, 30, 0⟩),
    season := some "FALL", polarization := some "VV" }

/-- An HTTP oracle answering 500 to every request. -/
def respond500 : IngestData.Method → String → IngestData.StacObject → Nat := fun _ _ _ => 500

/-- An HTTP oracle answering 409 to POST and 200 to PUT. -/
def respond409 : IngestData.Method → String → IngestData.StacObject → Nat := fun m _ _ =>
  match m with
  | .post => 409
  | .put => 200

/-- A STAC Feature belonging to collection c1. -/
def featureC1 : IngestData.StacObject := { typ := "Feature", id := "item1", collection := some "c1" }

/-- A STAC Feature belonging to collection c2. -/
def featureC2 : IngestData.StacObject := { typ := "Feature", id := "item2", collection := some "c2" }

/-- The extra metadata parse_s3_key yields for N00E005_fall_vh_AMP.tif. -/
def sampleExtraFall : CreateCoherenceItems.ExtraItemMetadata :=
  { season := "FALL", date_range := (⟨2020, 9, 1, 0⟩, ⟨2020, 11, 30, 0⟩),
    datetime := ⟨2020, 10, 16, 0⟩, polarization := "VH" }

/-- The metadata parse_s3_key yields for N00E005_fall_vh_AMP.tif. -/
def sampleMetaFall : CreateCoherenceItems.ItemMetadata :=
  { id := "N00E005_fall_vh_AMP", bbox := ⟨5, -1, 6, 0⟩, tileid := "N00E005",
    product := "AMP", extra := some sampleExtraFall }

/-- The item create_stac_item builds for N00E005_fall_vh_AMP.tif against the
base URL https, colon, slash slash x slash. -/
def sampleItemFall : CreateCoherenceItems.StacItemSingle :=
  { id := "N00E005_fall_vh_AMP",
    properties :=
      { tileid := "N00E005",
        sar_instrument_mode := "IW",
        sar_frequency_band := "C",
        sar_product_type := "AMP",
        sar_looks_range := 12,
        sar_looks_azimuth := 3,
        sar_observation_direction := "right",
        start_datetime := "2020-09-01T00:00:00Z",
        end_datetime := "2020-11-30T00:00:00Z",
        season := some "FALL",
        datetime := some "2020-10-16T00:00:00Z",
        sar_polarizations := some ["VH"] },
    geometry := [(6, -1), (6, 0), (5, 0), (5, -1), (6, -1)],
    asset_href := "https://x/N00E005_fall_vh_AMP.tif",
    bbox := ⟨5, -1, 6, 0⟩,
    collection := "sentinel-1-global-coherence" }

end Fixtures

section DecoderTheorems

open ASFStac

theorem isDigit_ne_minus {c : Char} (h : c.isDigit = true) : ¬c = '-' := by
  intro e
  subst e
  exact absurd h (by decide)

theorem isDigit_ne_plus {c : Char} (h : c.isDigit = true) : ¬c = '+' := by
  intro e
  subst e
  exact absurd h (by decide)

theorem digitsVal_two (b c : Char) :
    digitsVal [b, c] = 10 * (b.toNat - 48) + (c.toNat - 48) := by
  simp [digitsVal, List.foldl]
  ring

theorem digitsVal_three (e f g : Char) :
    digitsVal [e, f, g] = 100 * (e.toNat - 48) + 10 * (f.toNat - 48) + (g.toNat - 48) := by
  simp [digitsVal, List.foldl]
  ring

theorem pyInt_digits (c : Char) (rest : List Char) (h : allDigits (c :: rest) = true) :
    pyInt (c :: rest) = some ((digitsVal (c :: rest) : Nat) : Int) := by
  have hc : c.isDigit = true := by
    have h2 := h
    simp [allDigits, List.all_cons] at h2
    exact h2.1
  simp only [pyInt]
  rw [if_neg (isDigit_ne_minus hc), if_neg (isDigit_ne_plus hc), if_pos h]

theorem digitChar_isDigit {n : Nat} (h : n < 10) : (Nat.digitChar n).isDigit = true := by
  interval_cases n <;> decide

theorem bounding_box_from_tile_id_eval (a b c d e f g : Char)
    (hb : b.isDigit = true) (hc : c.isDigit = true) (he : e.isDigit = true)
    (hf : f.isDigit = true) (hg : g.isDigit = true) :
    CreateCoherenceItems.bounding_box_from_tile_id (String.mk [a, b, c, d, e, f, g]) =
      some { min_x := if d = 'E' then lonVal e f g else -lonVal e f g,
             min_y := (if a = 'N' then latVal b c else -latVal b c) - 1,
             max_x := (if d = 'E' then lonVal e f g else -lonVal e f g) + 1,
             max_y := if a = 'N' then latVal b c else -latVal b c } := by
  have h2 : allDigits [b, c] = true := by simp [allDigits, List.all_cons, hb, hc]
  have h3 : allDigits [e, f, g] = true := by simp [allDigits, List.all_cons, he, hf, hg]
  have hbc : pyInt (((String.mk [a, b, c, d, e, f, g]).data.drop 1).take 2) =
      some (latVal b c) := by
    show pyInt [b, c] = some (latVal b c)
    rw [pyInt_digits b [c] h2, digitsVal_two]
    rfl
  have hefg : pyInt (((String.mk [a, b, c, d, e, f, g]).data.drop 4).take 3) =
      some (lonVal e f g) := by
    show pyInt [e, f, g] = some (lonVal e f g)
    rw [pyInt_digits e [f, g] h3, digitsVal_three]
    rfl
  simp only [CreateCoherenceItems.bounding_box_from_tile_id]
  rw [hbc, hefg]
  rfl

theorem tileid_to_bbox_eval (a b c d e f g : Char)
    (hb : b.isDigit = true) (hc : c.isDigit = true) (he : e.isDigit = true)
    (hf : f.isDigit = true) (hg : g.isDigit = true) :
    CoherenceStac.tileid_to_bbox (String.mk [a, b, c, d, e, f, g]) =
      some { min_x := if d = 'W' then -lonVal e f g else lonVal e f g,
             min_y := (if a = 'S' then -latVal b c else latVal b c) - 1,
             max_x := (if d = 'W' then -lonVal e f g else lonVal e f g) + 1,
             max_y := if a = 'S' then -latVal b c else latVal b c } := by
  have h2 : allDigits [b, c] = true := by simp [allDigits, List.all_cons, hb, hc]
  have h3 : allDigits [e, f, g] = true := by simp [allDigits, List.all_cons, he, hf, hg]
  have hbc : pyInt (((String.mk [a, b, c, d, e, f, g]).data.drop 1).take 2) =
      some (latVal b c) := by
    show pyInt [b, c] = some (latVal b c)
    rw [pyInt_digits b [c] h2, digitsVal_two]
    rfl
  have hefg : pyInt (((String.mk [a, b, c, d, e, f, g]).data.drop 4).take 3) =
      some (lonVal e f g) := by
    show pyInt [e, f, g] = some (lonVal e f g)
    rw [pyInt_digits e [f, g] h3, digitsVal_three]
    rfl
  simp only [CoherenceStac.tileid_to_bbox]
  rw [hbc, hefg]
  rfl

theorem decoders_agree (a b c d e f g : Char)
    (ha : a = 'N' ∨ a = 'S') (hb : b.isDigit = true) (hc : c.isDigit = true)
    (hd : d = 'E' ∨ d = 'W') (he : e.isDigit = true) (hf : f.isDigit = true)
    (hg : g.isDigit = true) :
    CreateCoherenceItems.bounding_box_from_tile_id (String.mk [a, b, c, d, e, f, g]) =
      CoherenceStac.tileid_to_bbox (String.mk [a, b, c, d, e, f, g]) := by
  rw [bounding_box_from_tile_id_eval a b c d e f g hb hc he hf hg,
      tileid_to_bbox_eval a b c d e f g hb hc he hf hg]
  rcases ha with rfl | rfl <;> rcases hd with rfl | rfl <;> simp

/-- C1: for every well-formed 7-character tile token [NS]dd[EW]ddd, decoding
returns the box with max_y = latval if the latitude letter is N else -latval,
min_y = max_y - 1, min_x = lonval if the longitude letter is E else -lonval,
max_x = min_x + 1; and the four concrete spec examples decode as stated, in
both implementations. -/
theorem C1_tile_decode :
    (∀ a b c d e f g : Char, (a = 'N' ∨ a = 'S') → b.isDigit = true → c.isDigit = true →
      (d = 'E' ∨ d = 'W') → e.isDigit = true → f.isDigit = true → g.isDigit = true →
      CreateCoherenceItems.bounding_box_from_tile_id (String.mk [a, b, c, d, e, f, g]) =
        some { min_x := if d = 'E' then lonVal e f g else -lonVal e f g,
               min_y := (if a = 'N' then latVal b c else -latVal b c) - 1,
               max_x := (if d = 'E' then lonVal e f g else -lonVal e f g) + 1,
               max_y := if a = 'N' then latVal b c else -latVal b c }) ∧
    CreateCoherenceItems.bounding_box_from_tile_id "N49E009" = some ⟨9, 48, 10, 49⟩ ∧
    CreateCoherenceItems.bounding_box_from_tile_id "N48W090" = some ⟨-90, 47, -89, 48⟩ ∧
    CreateCoherenceItems.bounding_box_from_tile_id "S01E012" = some ⟨12, -2, 13, -1⟩ ∧
    CreateCoherenceItems.bounding_box_from_tile_id "S78W161" = some ⟨-161, -79, -160, -78⟩ ∧
    CoherenceStac.tileid_to_bbox "N49E009" = some ⟨9, 48, 10, 49⟩ ∧
    CoherenceStac.tileid_to_bbox "N48W090" = some ⟨-90, 47, -89, 48⟩ ∧
    CoherenceStac.tileid_to_bbox "S01E012" = some ⟨12, -2, 13, -1⟩ ∧
    CoherenceStac.tileid_to_bbox "S78W161" = some ⟨-161, -79, -160, -78⟩ :=
  ⟨fun a b c d e f g _ hb hc _ he hf hg =>
      bounding_box_from_tile_id_eval a b c d e f g hb hc he hf hg,
   by decide, by decide, by decide, by decide, by decide, by decide, by decide, by decide⟩

theorem C1_tile_decode_witness :
    CreateCoherenceItems.bounding_box_from_tile_id (String.mk ['S', '7', '8', 'W', '1', '6', '1']) =
      some { min_x := -161, min_y := -79, max_x := -160, max_y := -78 } := by
  have h := C1_tile_decode.1 'S' '7' '8' 'W' '1' '6' '1' (Or.inr rfl) (by decide) (by decide)
      (Or.inr rfl) (by decide) (by decide) (by decide)
  rw [h]
  decide

/-- C2 is false on the code: there is no well-formed tile token, southern or
western hemisphere included, on which bounding_box_from_tile_id and
tileid_to_bbox return different boxes (every well-formed token is
mkTileString of its hemisphere flags and magnitudes). -/
theorem C2_counterexample :
    (∃ south : Bool, ∃ latv : Fin 100, ∃ west : Bool, ∃ lonv : Fin 1000,
        (south = true ∨ west = true) ∧
        CreateCoherenceItems.bounding_box_from_tile_id (mkTileString south latv west lonv) ≠
          CoherenceStac.tileid_to_bbox (mkTileString south latv west lonv)) = False := by
  apply eq_false
  rintro ⟨south, latv, west, lonv, -, hne⟩
  apply hne
  have hlat := latv.isLt
  have hlon := lonv.isLt
  show CreateCoherenceItems.bounding_box_from_tile_id (String.mk
      [(if south then 'S' else 'N'),
       Nat.digitChar (latv.val / 10), Nat.digitChar (latv.val % 10),
       (if west then 'W' else 'E'),
       Nat.digitChar (lonv.val / 100), Nat.digitChar (lonv.val / 10 % 10),
       Nat.digitChar (lonv.val % 10)]) =
    CoherenceStac.tileid_to_bbox (String.mk
      [(if south then 'S' else 'N'),
       Nat.digitChar (latv.val / 10), Nat.digitChar (latv.val % 10),
       (if west then 'W' else 'E'),
       Nat.digitChar (lonv.val / 100), Nat.digitChar (lonv.val / 10 % 10),
       Nat.digitChar (lonv.val % 10)])
  exact decoders_agree _ _ _ _ _ _ _
    (by cases south <;> simp)
    (digitChar_isDigit (by omega)) (digitChar_isDigit (by omega))
    (by cases west <;> simp)
    (digitChar_isDigit (by omega)) (digitChar_isDigit (by omega))
    (digitChar_isDigit (by omega))

/-- C2 (amended): the two tile decoders agree on every well-formed token
[NS]dd[EW]ddd; they can differ only on malformed tokens whose hemisphere
letters are neither N/S nor E/W. -/
theorem C2_decoders_agree :
    ∀ a b c d e f g : Char, (a = 'N' ∨ a = 'S') → b.isDigit = true → c.isDigit = true →
      (d = 'E' ∨ d = 'W') → e.isDigit = true → f.isDigit = true → g.isDigit = true →
      CreateCoherenceItems.bounding_box_from_tile_id (String.mk [a, b, c, d, e, f, g]) =
        CoherenceStac.tileid_to_bbox (String.mk [a, b, c, d, e, f, g]) :=
  fun a b c d e f g ha hb hc hd he hf hg => decoders_agree a b c d e f g ha hb hc hd he hf hg

theorem C2_decoders_agree_witness :
    CreateCoherenceItems.bounding_box_from_tile_id (String.mk ['S', '7', '8', 'W', '1', '6', '1']) =
      CoherenceStac.tileid_to_bbox (String.mk ['S', '7', '8', 'W', '1', '6', '1']) :=
  C2_decoders_agree 'S' '7' '8' 'W' '1' '6' '1' (Or.inr rfl) (by decide) (by decide)
    (Or.inr rfl) (by decide) (by decide) (by decide)

/-- C6 is false on the code: the 7-character token X12E012 does not match
[NS]dd[EW]ddd, yet both decoders succeed on it (treating the unknown latitude
letter X like S in one implementation and like N in the other). -/
theorem C6_counterexample :
    isTilePattern "X12E012" = false ∧
    CreateCoherenceItems.bounding_box_from_tile_id "X12E012" = some ⟨12, -13, 13, -12⟩ ∧
    CoherenceStac.tileid_to_bbox "X12E012" = some ⟨12, 11, 13, 12⟩ := by
  decide

/-- C6 (amended): both decoders succeed on every token matching the
7-character pattern [NS]dd[EW]ddd, but they do not fail on every
non-matching token: any 7-character token whose five digit positions hold
digits is decoded whatever its hemisphere letters are,
bounding_box_from_tile_id treating any latitude letter other than N like S
and any longitude letter other than E like W, and tileid_to_bbox doing the
opposite; decoding fails only when a sliced numeric field is not a valid
integer literal. -/
theorem C6_decode_success :
    ∀ a b c d e f g : Char, b.isDigit = true → c.isDigit = true →
      e.isDigit = true → f.isDigit = true → g.isDigit = true →
      CreateCoherenceItems.bounding_box_from_tile_id (String.mk [a, b, c, d, e, f, g]) =
        some { min_x := if d = 'E' then lonVal e f g else -lonVal e f g,
               min_y := (if a = 'N' then latVal b c else -latVal b c) - 1,
               max_x := (if d = 'E' then lonVal e f g else -lonVal e f g) + 1,
               max_y := if a = 'N' then latVal b c else -latVal b c } ∧
      CoherenceStac.tileid_to_bbox (String.mk [a, b, c, d, e, f, g]) =
        some { min_x := if d = 'W' then -lonVal e f g else lonVal e f g,
               min_y := (if a = 'S' then -latVal b c else latVal b c) - 1,
               max_x := (if d = 'W' then -lonVal e f g else lonVal e f g) + 1,
               max_y := if a = 'S' then -latVal b c else latVal b c } :=
  fun a b c d e f g hb hc he hf hg =>
    ⟨bounding_box_from_tile_id_eval a b c d e f g hb hc he hf hg,
     tileid_to_bbox_eval a b c d e f g hb hc he hf hg⟩

theorem C6_decode_success_witness :
    CreateCoherenceItems.bounding_box_from_tile_id (String.mk ['X', '1', '2', 'E', '0', '1', '2']) =
      some { min_x := 12, min_y := -13, max_x := 13, max_y := -12 } ∧
    CoherenceStac.tileid_to_bbox (String.mk ['X', '1', '2', 'E', '0', '1', '2']) =
      some { min_x := 12, min_y := 11, max_x := 13, max_y := 12 } := by
  have h := C6_decode_success 'X' '1' '2' 'E' '0' '1' '2' (by decide) (by decide) (by decide)
      (by decide) (by decide)
  exact ⟨by rw [h.1]; decide, by rw [h.2]; decide⟩

end DecoderTheorems

section ParserTheorems

open ASFStac

/-- C3: what parse_s3_key actually returns on the two spec examples.  The
tile, absence of season/polarization, and fall's constant range and midpoint
all come out as the claim states, but the parser upper-cases the whole item
id before splitting, so the product is INC (not inc) and the season FALL
(not fall) — the repository's own tests assert the lower-case forms. -/
theorem C3_parse_eval :
    CreateCoherenceItems.parse_s3_key "N00E005_124D_inc.tif" =
      .ok { id := "N00E005_124D_inc", bbox := ⟨5, -1, 6, 0⟩, tileid := "N00E005",
            product := "INC", extra := none } ∧
    CreateCoherenceItems.parse_s3_key "N00E005_fall_vh_AMP.tif" =
      .ok { id := "N00E005_fall_vh_AMP", bbox := ⟨5, -1, 6, 0⟩, tileid := "N00E005",
            product := "AMP",
            extra := some { season := "FALL",
                            date_range := (⟨2020, 9, 1, 0⟩, ⟨2020, 11, 30, 0⟩),
                            datetime := ⟨2020, 10, 16, 0⟩, polarization := "VH" } } ∧
    ("INC" : String) ≠ "inc" ∧ ("FALL" : String) ≠ "fall" := by
  refine ⟨by decide, by decide, by decide, by decide⟩

theorem parse_s3_key_extra_tables {s3_key : String} {m : CreateCoherenceItems.ItemMetadata}
    (h : CreateCoherenceItems.parse_s3_key s3_key = .ok m) :
    ∀ ex, m.extra = some ex →
      CreateCoherenceItems.SEASON_DATE_RANGES ex.season = some ex.date_range ∧
      CreateCoherenceItems.SEASON_DATETIME_AVERAGES ex.season = some ex.datetime := by
  intro ex hex
  simp only [CreateCoherenceItems.parse_s3_key] at h
  split at h
  · split at h
    · exact Except.noConfusion h
    · injection h with h
      subst h
      simp at hex
  · split at h
    · exact Except.noConfusion h
    · split at h
      · injection h with h
        subst h
        simp only [Option.some.injEq] at hex
        subst hex
        constructor
        · assumption
        · assumption
      · exact Except.noConfusion h
  · exact Except.noConfusion h

/-- C7: for every parsed asset, the single-item builder defaults
start_datetime/end_datetime to the full outer mission range (winter start
through fall end) with no datetime, season or polarizations, and when season
metadata is present overrides them with the season's own constant range and
adds the season's constant midpoint, the season, and the single-element
upper-cased polarization list. -/
theorem C7_single_item_datetimes :
    ∀ (s3_key s3_url : String) (m : CreateCoherenceItems.ItemMetadata)
      (item : CreateCoherenceItems.StacItemSingle),
      CreateCoherenceItems.parse_s3_key s3_key = .ok m →
      CreateCoherenceItems.create_stac_item s3_key s3_url = .ok item →
      (m.extra = none →
        item.properties.start_datetime =
          CreateCoherenceItems.datetime_to_str CreateCoherenceItems.WINTER_RANGE.1 ∧
        item.properties.end_datetime =
          CreateCoherenceItems.datetime_to_str CreateCoherenceItems.FALL_RANGE.2 ∧
        item.properties.datetime = none ∧ item.properties.season = none ∧
        item.properties.sar_polarizations = none) ∧
      (∀ ex, m.extra = some ex →
        item.properties.start_datetime =
          CreateCoherenceItems.datetime_to_str ex.date_range.1 ∧
        item.properties.end_datetime =
          CreateCoherenceItems.datetime_to_str ex.date_range.2 ∧
        CreateCoherenceItems.SEASON_DATE_RANGES ex.season = some ex.date_range ∧
        item.properties.datetime = some (CreateCoherenceItems.datetime_to_str ex.datetime) ∧
        CreateCoherenceItems.SEASON_DATETIME_AVERAGES ex.season = some ex.datetime ∧
        item.properties.season = some ex.season ∧
        item.properties.sar_polarizations = some [ex.polarization]) := by
  intro s3_key s3_url m item hp hi
  simp only [CreateCoherenceItems.create_stac_item, hp] at hi
  constructor
  · intro hnone
    rw [hnone] at hi
    injection hi with hi
    subst hi
    exact ⟨rfl, rfl, rfl, rfl, rfl⟩
  · intro ex hex
    have htab := parse_s3_key_extra_tables hp ex hex
    rw [hex] at hi
    injection hi with hi
    subst hi
    exact ⟨rfl, rfl, htab.1, rfl, htab.2, rfl, rfl⟩

theorem C7_single_item_datetimes_witness :
    sampleItemFall.properties.start_datetime =
      CreateCoherenceItems.datetime_to_str sampleExtraFall.date_range.1 ∧
    sampleItemFall.properties.end_datetime =
      CreateCoherenceItems.datetime_to_str sampleExtraFall.date_range.2 ∧
    CreateCoherenceItems.SEASON_DATE_RANGES sampleExtraFall.season =
      some sampleExtraFall.date_range ∧
    sampleItemFall.properties.datetime =
      some (CreateCoherenceItems.datetime_to_str sampleExtraFall.datetime) ∧
    CreateCoherenceItems.SEASON_DATETIME_AVERAGES sampleExtraFall.season =
      some sampleExtraFall.datetime ∧
    sampleItemFall.properties.season = some sampleExtraFall.season ∧
    sampleItemFall.properties.sar_polarizations = some [sampleExtraFall.polarization] :=
  (C7_single_item_datetimes "N00E005_fall_vh_AMP.tif" "https://x/" sampleMetaFall sampleItemFall
    (by decide) (by decide)).2 sampleExtraFall rfl

end ParserTheorems

section CollectionTheorems

open ASFStac

theorem create_stac_item_ok_shape {y sa : List CoherenceStac.AssetDict}
    {item : CoherenceStac.CohItem} (h : CoherenceStac.create_stac_item y sa = .ok item) :
    ∃ ex rest seas dr, sa = ex :: rest ∧ ex.season = some seas ∧ ex.date_range = some dr ∧
      item.tileid = ex.tileid ∧ item.season = seas ∧
      item.id = ex.tileid ++ "_" ++ seas ∧
      item.datetimeMinutes = midMinutes dr.1 dr.2 ∧
      (∃ entries, mapME CoherenceStac.seasonal_asset_entry sa = .ok entries ∧
        item.assets = y.map CoherenceStac.yearly_asset_entry ++ entries) := by
  match sa with
  | [] => exact Except.noConfusion h
  | ex :: rest =>
    simp only [CoherenceStac.create_stac_item] at h
    split at h
    · exact Except.noConfusion h
    · split at h
      · exact Except.noConfusion h
      · split at h
        · exact Except.noConfusion h
        · split at h
          · split at h
            · exact Except.noConfusion h
            · injection h with h
              subst h
              refine ⟨ex, rest, _, _, rfl, ?_, ?_, rfl, rfl, rfl, rfl, _, ?_, rfl⟩
              · assumption
              · assumption
              · assumption
          · exact Except.noConfusion h

/-- C10: for every season in the tables, the single-item implementation's
static midpoint constant equals the exact midpoint start + (end - start)/2
of that season's range in the collection-grouping implementation's SEASONS
table, so the two implementations assign the same datetime to any given
season (the collection-grouping item datetime is that exact midpoint by the
shape of create_stac_item). -/
theorem C10_midpoints_agree :
    ∀ k dr avg, CoherenceStac.SEASONS k = some dr →
      CreateCoherenceItems.SEASON_DATETIME_AVERAGES k = some avg →
      toMinutes avg = midMinutes dr.1 dr.2 := by
  intro k dr avg h1 h2
  unfold CoherenceStac.SEASONS at h1
  unfold CreateCoherenceItems.SEASON_DATETIME_AVERAGES at h2
  split_ifs at h1 h2 <;> simp only [Option.some.injEq] at h1 h2 <;> subst h1 <;> subst h2 <;>
    decide

theorem C10_midpoints_agree_witness :
    toMinutes ⟨2020, 10, 16, 0⟩ = midMinutes ⟨2020, 9, 1, 0⟩ ⟨2020, 11, 30, 0⟩ :=
  C10_midpoints_agree "FALL" (⟨2020, 9, 1, 0⟩, ⟨2020, 11, 30, 0⟩) ⟨2020, 10, 16, 0⟩
    (by decide) (by decide)

theorem mapME_ok_mem {ε α β : Type} {f : α → Except ε β} :
    ∀ {l : List α} {r : List β}, mapME f l = .ok r → ∀ b ∈ r, ∃ a ∈ l, f a = .ok b := by
  intro l
  induction l with
  | nil =>
    intro r h b hb
    simp only [mapME] at h
    injection h with h
    subst h
    simp at hb
  | cons a t ih =>
    intro r h b hb
    simp only [mapME] at h
    split at h
    · exact Except.noConfusion h
    · split at h
      · exact Except.noConfusion h
      · injection h with h
        subst h
        rcases List.mem_cons.mp hb with rfl | hb2
        · exact ⟨a, List.mem_cons_self a t, by assumption⟩
        · obtain ⟨a2, ha2, hf2⟩ := ih (by assumption) b hb2
          exact ⟨a2, List.mem_cons_of_mem a ha2, hf2⟩

/-- C9: for every tile asset group the collection assembler processes (a
listing all of whose parseable URLs carry the same tile id t), every child
item of the assembled collection records that tile id: its properties tileid
and its id prefix both equal the collection's id. -/
theorem C9_collection_items_tileid :
    ∀ (listing : String → List String) (pfx : String) (c : CoherenceStac.CohCollection)
      (t : String),
      CoherenceStac.create_tile_stac_collection listing pfx = .ok c →
      (∀ url ∈ listing pfx,
        (CoherenceStac.parse_url url).map CoherenceStac.AssetDict.tileid = .ok t ∨
          isError (CoherenceStac.parse_url url) = true) →
      c.id = t ∧
        ∀ item ∈ c.items, item.tileid = c.id ∧ item.id = c.id ++ "_" ++ item.season := by
  intro listing pfx c t hok hall
  simp only [CoherenceStac.create_tile_stac_collection] at hok
  split at hok
  · exact Except.noConfusion hok
  · split at hok
    · exact Except.noConfusion hok
    · split at hok
      · exact Except.noConfusion hok
      · split at hok
        · exact Except.noConfusion hok
        · split at hok
          · exact Except.noConfusion hok
          · injection hok with hok
            subst hok
            rename_i sa first adrest heq1 heq2 itemsAll item0 irest heq3
            have key : ∀ x ∈ first :: adrest, x.tileid = t := by
              intro x hx
              obtain ⟨url, hurl, hp⟩ := mapME_ok_mem heq1 x hx
              rcases hall url hurl with hmap | herr
              · rw [hp] at hmap
                simp only [Except.map, Except.ok.injEq] at hmap
                exact hmap
              · rw [hp] at herr
                exact absurd herr (by simp [isError])
            have hfirst : first.tileid = t := key first (List.mem_cons_self first adrest)
            refine ⟨hfirst, ?_⟩
            intro item hitem
            obtain ⟨season, hseason_mem, hcreate⟩ := mapME_ok_mem heq3 item hitem
            obtain ⟨ex, rest, seas, dr, hseq, -, -, htile, hseasonp, hid, -, -⟩ :=
              create_stac_item_ok_shape hcreate
            have hexmem : ex ∈ first :: adrest := by
              have hmem2 : ex ∈ (first :: adrest).filter
                  (fun x => containsSub x.url.data (pyLower season).data) := by
                rw [hseq]
                exact List.mem_cons_self ex rest
              exact List.mem_of_mem_filter hmem2
            have hext : ex.tileid = t := key ex hexmem
            constructor
            · show item.tileid = first.tileid
              rw [htile, hext, hfirst]
            · show item.id = first.tileid ++ "_" ++ item.season
              rw [hid, hseasonp, hext, hfirst]

theorem C9_collection_items_tileid_witness :
    (match CoherenceStac.create_tile_stac_collection sampleListing "a/" with
     | .ok c => c.id = "N00E005" ∧
         ∀ item ∈ c.items, item.tileid = c.id ∧ item.id = c.id ++ "_" ++ item.season
     | .error _ => False) := by
  cases hc : CoherenceStac.create_tile_stac_collection sampleListing "a/" with
  | error e =>
    have h0 : isError (CoherenceStac.create_tile_stac_collection sampleListing "a/") = false := by
      decide
    rw [hc] at h0
    exact absurd h0 (by simp [isError])
  | ok c =>
    exact C9_collection_items_tileid sampleListing "a/" c "N00E005" hc (by decide)

theorem safe_inr_of_error {listing : String → List String} {p : String}
    (h : isError (CoherenceStac.create_tile_stac_collection listing p) = true) :
    CoherenceStac.safe_create_tile_stac_collection listing p = .inr p := by
  unfold CoherenceStac.safe_create_tile_stac_collection
  cases hc : CoherenceStac.create_tile_stac_collection listing p with
  | ok c =>
    rw [hc] at h
    exact absurd h (by simp [isError])
  | error e => rfl

theorem safe_inl_of_ok {listing : String → List String} {q : String}
    (h : isError (CoherenceStac.create_tile_stac_collection listing q) = false) :
    ∃ c, CoherenceStac.safe_create_tile_stac_collection listing q = .inl c := by
  unfold CoherenceStac.safe_create_tile_stac_collection
  cases hc : CoherenceStac.create_tile_stac_collection listing q with
  | ok c => exact ⟨c, rfl⟩
  | error e =>
    rw [hc] at h
    exact absurd h (by simp [isError])

theorem map_safe_no_failures {listing : String → List String} :
    ∀ l : List String,
      (∀ r ∈ l, isError (CoherenceStac.create_tile_stac_collection listing r) = false) →
      (l.map (CoherenceStac.safe_create_tile_stac_collection listing)).filter
        (fun r => r.isRight) = [] := by
  intro l
  induction l with
  | nil => intro _; rfl
  | cons q t ih =>
    intro hall
    obtain ⟨c, hc⟩ := safe_inl_of_ok (hall q (List.mem_cons_self q t))
    simp only [List.map_cons, List.filter, hc, Sum.isRight]
    exact ih (fun r hr => hall r (List.mem_cons_of_mem q hr))

/-- C5: for every tile prefix, if collection building raises for any member
of that tile's asset group, the safe builder returns the identifying prefix
as a placeholder instead of propagating the exception; a batch with exactly
one failing prefix still produces one result per prefix and records exactly
one failure, the failing prefix's placeholder. -/
theorem C5_safe_collection_isolation :
    (∀ (listing : String → List String) (pfx : String) (e : PyErr),
      CoherenceStac.create_tile_stac_collection listing pfx = .error e →
      CoherenceStac.safe_create_tile_stac_collection listing pfx = .inr pfx) ∧
    (∀ (listing : String → List String) (pfxs : List String) (p : String),
      pfxs.count p = 1 →
      isError (CoherenceStac.create_tile_stac_collection listing p) = true →
      (∀ q ∈ pfxs, q ≠ p →
        isError (CoherenceStac.create_tile_stac_collection listing q) = false) →
      (pfxs.map (CoherenceStac.safe_create_tile_stac_collection listing)).length =
          pfxs.length ∧
        (pfxs.map (CoherenceStac.safe_create_tile_stac_collection listing)).filter
          (fun r => r.isRight) = [Sum.inr p]) := by
  constructor
  · intro listing pfx e h
    exact safe_inr_of_error (by rw [h]; rfl)
  · intro listing pfxs p
    induction pfxs with
    | nil =>
      intro hcount _ _
      simp at hcount
    | cons q t ih =>
      intro hcount herr hothers
      refine ⟨by simp, ?_⟩
      by_cases hq : q = p
      · subst hq
        have h1 : CoherenceStac.safe_create_tile_stac_collection listing q = .inr q :=
          safe_inr_of_error herr
        have hc0 : t.count q = 0 := by
          rw [List.count_cons_self] at hcount
          omega
        have hnot : q ∉ t := by
          rw [← List.count_eq_zero]
          exact hc0
        have hrest : (t.map (CoherenceStac.safe_create_tile_stac_collection listing)).filter
            (fun r => r.isRight) = [] := by
          refine map_safe_no_failures t (fun r hr => ?_)
          exact hothers r (List.mem_cons_of_mem q hr) (fun hrq => hnot (hrq ▸ hr))
        simp [List.filter_cons, h1, hrest]
      · have hok : isError (CoherenceStac.create_tile_stac_collection listing q) = false :=
          hothers q (List.mem_cons_self q t) hq
        obtain ⟨c, hc⟩ := safe_inl_of_ok hok
        have hcount2 : t.count p = 1 := by
          rw [List.count_cons_of_ne (fun hpq => hq hpq.symm)] at hcount
          exact hcount
        have ih2 := ih hcount2 herr (fun r hr hrp => hothers r (List.mem_cons_of_mem q hr) hrp)
        simp [List.filter_cons, hc, ih2.2]

theorem C5_safe_collection_isolation_witness :
    CoherenceStac.safe_create_tile_stac_collection sampleListing "bad/" = Sum.inr "bad/" ∧
    (["a/", "bad/", "c/"].map
        (CoherenceStac.safe_create_tile_stac_collection sampleListing)).filter
      (fun r => r.isRight) = [Sum.inr "bad/"] :=
  ⟨C5_safe_collection_isolation.1 sampleListing "bad/" PyErr.indexError (by decide),
   (C5_safe_collection_isolation.2 sampleListing ["a/", "bad/", "c/"] "bad/" (by decide)
     (by decide) (by decide)).2⟩

/-- C8 is false on the code: the COH handling fires on substring containment
and parses only the last two characters of the product token.  For product
COH123 the built entry's temporal_separation is 23 days, not the 123 days
the trailing numeric suffix would give; and for product ACOH36, which does
not begin with COH, the entry's product tag is replaced by COH instead of
being kept unmodified. -/
theorem C8_counterexample :
    Except.map (fun item => item.assets.map (fun a => (a.product, a.temporal_separation)))
        (CoherenceStac.create_stac_item [] [sampleAssetCoh123, sampleAssetAcoh36]) =
      .ok [(some "COH", some "23 days"), (some "COH", some "36 days")] ∧
    some "23 days" ≠ some "123 days" ∧
    (some "COH" : Option String) ≠ some "ACOH36" := by
  refine ⟨by decide, by decide, by decide⟩

/-- C8 (amended): in collection-grouping mode each seasonal asset yields one
entry keyed product_polarization; whenever COH occurs anywhere in the
product token (not only as a prefix) the entry carries the fixed product tag
COH and temporal_separation equal to the integer parsed from the token's
last two characters (not its whole trailing numeric suffix) followed by
" days", failing if those two characters do not parse; a product not
containing COH keeps its code unmodified. -/
theorem C8_coh_asset_entries :
    (∀ (asset : CoherenceStac.AssetDict) (pol : String), asset.polarization = some pol →
      (∀ n : Int, containsSub asset.product.data "COH".data = true →
        pyInt (asset.product.data.drop (asset.product.data.length - 2)) = some n →
        CoherenceStac.seasonal_asset_entry asset =
          .ok { key := asset.product ++ "_" ++ pol, href := asset.url,
                polarization := some pol, product := some "COH",
                temporal_separation := some (toString n ++ " days") }) ∧
      (containsSub asset.product.data "COH".data = false →
        CoherenceStac.seasonal_asset_entry asset =
          .ok { key := asset.product ++ "_" ++ pol, href := asset.url,
                polarization := some pol, product := some asset.product,
                temporal_separation := none })) ∧
    (∀ (y sa : List CoherenceStac.AssetDict) (item : CoherenceStac.CohItem),
      CoherenceStac.create_stac_item y sa = .ok item →
      ∃ entries, mapME CoherenceStac.seasonal_asset_entry sa = .ok entries ∧
        item.assets = y.map CoherenceStac.yearly_asset_entry ++ entries) := by
  constructor
  · intro asset pol hpol
    constructor
    · intro n hcontains hparse
      simp only [CoherenceStac.seasonal_asset_entry, hpol]
      rw [if_pos hcontains, hparse]
    · intro hcontains
      simp only [CoherenceStac.seasonal_asset_entry, hpol]
      rw [if_neg (by rw [hcontains]; exact Bool.false_ne_true)]
  · intro y sa item h
    obtain ⟨ex, rest, seas, dr, hseq, hsea, hdr, htile, hseason, hid, hmid, entries,
      hmap, hassets⟩ := create_stac_item_ok_shape h
    exact ⟨entries, hmap, hassets⟩

theorem C8_coh_asset_entries_witness :
    CoherenceStac.seasonal_asset_entry sampleAssetCoh36 =
      .ok { key := sampleAssetCoh36.product ++ "_" ++ "VV", href := sampleAssetCoh36.url,
            polarization := some "VV", product := some "COH",
            temporal_separation := some (toString (36 : Int) ++ " days") } :=
  (C8_coh_asset_entries.1 sampleAssetCoh36 "VV" rfl).1 36 (by decide) (by decide)

end CollectionTheorems

section IngestTheorems

open ASFStac

/-- C4 is false on the code: main has no try/except, so a non-success,
non-409 response aborts the whole batch.  With an oracle answering 500 to
everything, ingesting two Features sends only the first object's POST; no
request for the second object's URL is ever made. -/
theorem C4_counterexample :
    IngestData.ingest_main respond500 "https://api.example.com/" [featureC1, featureC2] =
      ([⟨.post, "https://api.example.com/collections/c1/items"⟩], some .httpError) ∧
    (⟨.post, "https://api.example.com/collections/c2/items"⟩ : IngestData.HttpRequest) ∉
      (IngestData.ingest_main respond500 "https://api.example.com/" [featureC1, featureC2]).1 := by
  refine ⟨by decide, by decide⟩

/-- C4 (amended): each object is POSTed to /collections when its type is
Catalog or Collection and to /collections/collectionId/items when it is a
Feature; a 409 response is retried exactly once as a PUT to the same URL;
but any other non-success (4xx/5xx) status raises an error that aborts the
batch: objects after the failing one are not processed. -/
theorem C4_ingest_protocol :
    (∀ o : IngestData.StacObject, (o.typ = "Catalog" ∨ o.typ = "Collection") →
      IngestData.get_endpoint o = .ok "/collections") ∧
    (∀ (o : IngestData.StacObject) (coll : String), o.typ = "Feature" →
      o.collection = some coll →
      IngestData.get_endpoint o = .ok ("/collections/" ++ coll ++ "/items")) ∧
    (∀ (respond : IngestData.Method → String → IngestData.StacObject → Nat)
      (api_url endpoint : String) (o : IngestData.StacObject),
      IngestData.get_endpoint o = .ok endpoint →
      IngestData.add_stac_object respond o api_url =
        (if respond .post (urljoin api_url endpoint) o = 409 then
          ([⟨.post, urljoin api_url endpoint⟩, ⟨.put, urljoin api_url endpoint⟩],
           if IngestData.raisesForStatus (respond .put (urljoin api_url endpoint) o) then
             some PyErr.httpError
           else none)
        else
          ([⟨.post, urljoin api_url endpoint⟩],
           if IngestData.raisesForStatus (respond .post (urljoin api_url endpoint) o) then
             some PyErr.httpError
           else none))) ∧
    (∀ (respond : IngestData.Method → String → IngestData.StacObject → Nat)
      (api_url : String) (l1 l2 : List IngestData.StacObject) (o : IngestData.StacObject)
      (reqs : List IngestData.HttpRequest) (e : PyErr),
      IngestData.add_stac_object respond o api_url = (reqs, some e) →
      (∀ o1 ∈ l1, (IngestData.add_stac_object respond o1 api_url).2 = none) →
      IngestData.ingest_main respond api_url (l1 ++ o :: l2) =
        ((l1.map (fun o1 => (IngestData.add_stac_object respond o1 api_url).1)).flatten ++ reqs,
         some e)) := by
  refine ⟨?_, ?_, ?_, ?_⟩
  · intro o h
    simp [IngestData.get_endpoint, h]
  · intro o coll htyp hcoll
    have h1 : ¬(o.typ = "Catalog" ∨ o.typ = "Collection") := by
      rw [htyp]
      rintro (h | h) <;> exact absurd h (by decide)
    simp [IngestData.get_endpoint, h1, htyp, hcoll]
  · intro respond api_url endpoint o h
    simp only [IngestData.add_stac_object, h]
  · intro respond api_url l1
    induction l1 with
    | nil =>
      intro l2 o reqs e hadd hothers
      simp [IngestData.ingest_main, hadd]
    | cons o1 t ih =>
      intro l2 o reqs e hadd hothers
      have hsnd : (IngestData.add_stac_object respond o1 api_url).2 = none :=
        hothers o1 (List.mem_cons_self o1 t)
      have hr1 : IngestData.add_stac_object respond o1 api_url =
          ((IngestData.add_stac_object respond o1 api_url).1, none) := by
        rw [← hsnd]
      have ih2 := ih l2 o reqs e hadd
        (fun o2 ho2 => hothers o2 (List.mem_cons_of_mem o1 ho2))
      have hstep : IngestData.ingest_main respond api_url (o1 :: (t ++ o :: l2)) =
          ((IngestData.add_stac_object respond o1 api_url).1 ++
            (IngestData.ingest_main respond api_url (t ++ o :: l2)).1,
           (IngestData.ingest_main respond api_url (t ++ o :: l2)).2) := by
        simp only [IngestData.ingest_main]
        rw [hr1]
      rw [List.cons_append, hstep, ih2]
      simp [List.append_assoc]

theorem C4_ingest_protocol_witness :
    IngestData.ingest_main respond500 "https://api.example.com/" ([] ++ featureC1 :: [featureC2]) =
      ((([] : List IngestData.StacObject).map
          (fun o1 => (IngestData.add_stac_object respond500 o1 "https://api.example.com/").1)).flatten ++
        [⟨.post, "https://api.example.com/collections/c1/items"⟩],
       some PyErr.httpError) :=
  C4_ingest_protocol.2.2.2 respond500 "https://api.example.com/" [] [featureC2] featureC1
    [⟨.post, "https://api.example.com/collections/c1/items"⟩] PyErr.httpError
    (by decide) (by decide)

end IngestTheorems
